import Mathlib

/-
Verification of the configuration-resolution logic of the Tower/AWX Ansible
module base class (awx_collection/plugins/module_utils/tower_module.py).

The Python code is shallowly embedded below:
* POSIX path manipulation (os.path.split / os.path.join) over Lean strings;
* the implicit config-file discovery list built by load_config_files;
* the per-file loading algorithm load_config, with the YAML and INI parsers
  abstracted as oracles (the code only inspects their outcome shape);
* the direct-parameter override block of TowerModule.__init__.
-/

set_option maxHeartbeats 1000000

namespace Awx

/-- Model of str.startswith for the single-prefix case. -/
def strStartsWith (s pre : String) : Bool := pre.data.isPrefixOf s.data

/-- Model of str.endswith for the single-suffix case. -/
def strEndsWith (s suf : String) : Bool := suf.data.reverse.isPrefixOf s.data.reverse

/-- Model of posixpath.split: split a pathname at the final slash.
posixpath.split computes i = p.rfind(sep)+1, head = p[:i], tail = p[i:],
and strips trailing slashes from head unless head is entirely slashes. -/
def splitPath (p : String) : String × String :=
  let r := p.data.reverse
  let tl := r.takeWhile (fun c => c != '/')
  let hdR := r.dropWhile (fun c => c != '/')
  let hd := if hdR.all (fun c => c == '/') then hdR.reverse
            else (hdR.dropWhile (fun c => c == '/')).reverse
  (String.mk hd, String.mk tl.reverse)

/-- Model of posixpath.join for two arguments. -/
def pjoin (a b : String) : String :=
  if strStartsWith b "/" then b
  else if a = "" || strEndsWith a "/" then a ++ b
  else a ++ "/" ++ b

/-- TowerModule.config_name. -/
def config_name : String := "tower_cli.cfg"

/-- Model of the while loop of load_config_files (lines 88-90):
`while split(local_dir)[1]: local_dir = split(local_dir)[0];
config_files.insert(2, join(local_dir, "." + config_name))`.
Each iteration inserts at index 2, so read in final list order the block is
root-most first.  The loop variable strictly shrinks (posix split removes at
least the final component), so fuel equal to the string length suffices. -/
def ancestorBlock (name : String) : Nat → String → List String
  | 0, _ => []
  | Nat.succ fuel, d =>
    if (splitPath d).2 = "" then []
    else ancestorBlock name fuel (splitPath d).1 ++ [pjoin (splitPath d).1 ("." ++ name)]

/-- The implicit config file list of load_config_files (lines 85-90), in the
order the files are consulted: the system file, the home file, the inserted
ancestor block, and the unprefixed tower_cli.cfg of the working directory. -/
def configFiles (home cwd : String) : List String :=
  ["/etc/tower/tower_cli.cfg", pjoin home ("." ++ config_name)]
    ++ ancestorBlock config_name cwd.length cwd ++ [pjoin cwd config_name]

/-- The Python values that can reach the recognized settings: strings (from
INI or YAML), booleans and integers (from YAML, and from strtobool which
returns the ints 1/0), and None. -/
inductive PyValue
  | str (s : String)
  | bool (b : Bool)
  | int (n : Int)
  | null
deriving DecidableEq

/-- Python truthiness (bool(x)) for the modeled values. -/
def pyTruthy : PyValue → Bool
  | PyValue.str s => s != ""
  | PyValue.bool b => b
  | PyValue.int n => n != 0
  | PyValue.null => false

/-- The five recognized TowerModule attributes (honorred_settings). -/
structure TowerConfig where
  host : PyValue
  username : PyValue
  password : PyValue
  verify_ssl : PyValue
  oauth_token : PyValue
deriving DecidableEq

/-- The class-level defaults of TowerModule (lines 27-31). -/
def defaultConfig : TowerConfig :=
  { host := PyValue.str "127.0.0.1", username := PyValue.null,
    password := PyValue.null, verify_ssl := PyValue.bool true,
    oauth_token := PyValue.null }

/-- TowerModule.honorred_settings. -/
def honorred_settings : List String :=
  ["host", "username", "password", "verify_ssl", "oauth_token"]

/-- The two kinds of exceptions load_config can raise: its own
ConfigFileException, and the ValueError escaping from distutils strtobool. -/
inductive LoadError
  | configFileException (msg : String)
  | valueError (msg : String)
deriving DecidableEq

/-- Python str.lower(), character by character. -/
def strLower (s : String) : String := String.mk (s.data.map Char.toLower)

/-- Model of distutils.util.strtobool: 1 for truthy tokens, 0 for falsy
tokens, ValueError otherwise (case-insensitive). -/
def strtobool (s : String) : Except String Int :=
  let v := strLower s
  if v = "y" || v = "yes" || v = "t" || v = "true" || v = "on" || v = "1" then Except.ok 1
  else if v = "n" || v = "no" || v = "f" || v = "false" || v = "off" || v = "0" then Except.ok 0
  else Except.error ("invalid truth value " ++ s)

/-- First-match lookup in an association list keyed by strings (our reading
of a Python dict restricted to the keys the code queries). -/
def lookupKey {α : Type} : List (String × α) → String → Option α
  | [], _ => Option.none
  | (k2, v) :: rest, k => if k2 = k then Option.some v else lookupKey rest k

/-- setattr(self, k, v) restricted to the recognized settings. -/
def setSetting (c : TowerConfig) (k : String) (v : PyValue) : TowerConfig :=
  if k = "host" then { c with host := v }
  else if k = "username" then { c with username := v }
  else if k = "password" then { c with password := v }
  else if k = "verify_ssl" then { c with verify_ssl := v }
  else if k = "oauth_token" then { c with oauth_token := v }
  else c

/-- The body of the final loop of load_config (lines 168-177) for one
setting that is present in config_data: verify_ssl goes through strtobool
when it is a string (ValueError propagates) and through bool() otherwise;
every other setting is assigned as-is. -/
def applySetting (c : TowerConfig) (k : String) (v : PyValue) : Except LoadError TowerConfig :=
  if k = "verify_ssl" then
    match v with
    | PyValue.str s =>
      match strtobool s with
      | Except.ok n => Except.ok (setSetting c k (PyValue.int n))
      | Except.error m => Except.error (LoadError.valueError m)
    | _ => Except.ok (setSetting c k (PyValue.bool (pyTruthy v)))
  else Except.ok (setSetting c k v)

/-- One iteration of the final loop of load_config: settings absent from
config_data are skipped. -/
def settingStep (d : List (String × PyValue)) (c : TowerConfig) (k : String) :
    Except LoadError TowerConfig :=
  match lookupKey d k with
  | Option.none => Except.ok c
  | Option.some v => applySetting c k v

/-- The final loop of load_config over a list of honorred settings, with
exception propagation. -/
def applySettingsGo (d : List (String × PyValue)) :
    TowerConfig → List String → Except LoadError TowerConfig
  | c, [] => Except.ok c
  | c, k :: ks =>
    match settingStep d c k with
    | Except.ok c2 => applySettingsGo d c2 ks
    | Except.error e => Except.error e

/-- Lines 168-177 of load_config: fold the parsed config_data over the
honorred settings. -/
def applySettings (c : TowerConfig) (d : List (String × PyValue)) :
    Except LoadError TowerConfig :=
  applySettingsGo d c honorred_settings

/-- The filesystem facts the code queries (os.path.isfile / exists / isdir,
os.access(..., R_OK), and the text read from a file). -/
structure FileSystem where
  isfile : String → Bool
  pathExists : String → Bool
  isdir : String → Bool
  readable : String → Bool
  content : String → String

/-- Outcome shape of yaml.load under SafeLoader as the code discriminates
it: a dict, a non-dict value (AssertionError path), an AttributeError or
YAMLError (both fall back to INI), or any other exception. -/
inductive YamlResult
  | dict (d : List (String × PyValue))
  | nonDict
  | yamlError
  | otherError (msg : String)

/-- Parser oracles: yaml.load, and the ConfigParser read of the text
yielding the options of its general section (Except.error covers both a
parse failure and a missing general section, each of which the code turns
into a ConfigFileException). INI option values are always strings. -/
structure Parsers where
  yamlLoad : String → YamlResult
  iniGeneral : String → Except String (List (String × String))

/-- Substring membership on characters (the Python `in` operator). -/
def hasSubstr (needle : List Char) : List Char → Bool
  | [] => needle.isEmpty
  | c :: rest => needle.isPrefixOf (c :: rest) || hasSubstr needle rest

/-- Python: "[general]" in config_string. -/
def containsGeneral (s : String) : Bool := hasSubstr ("[general]".data) s.data

/-- Lines 139-140: prepend a "[general]" section marker when absent. -/
def generalized (s : String) : String :=
  if containsGeneral s then s else "[general]" ++ s

/-- Lines 153-159: pull the honorred settings out of the general section,
skipping options that are absent (NoOptionError). -/
def iniExtract (sec : List (String × String)) : List (String × PyValue) :=
  honorred_settings.filterMap (fun k =>
    match lookupKey sec k with
    | Option.none => Option.none
    | Option.some v => Option.some (k, PyValue.str v))

/-- Lines 118-165 of load_config: the file checks and the two parsing
strategies, producing the config_data dict that the final loop applies. -/
def fileData (fs : FileSystem) (P : Parsers) (path : String) :
    Except LoadError (List (String × PyValue)) :=
  if !fs.isfile path then
    Except.error (LoadError.configFileException "The specified config file does not exist")
  else if !fs.readable path then
    Except.error (LoadError.configFileException "The specified config file cannot be read")
  else
    match P.yamlLoad (fs.content path) with
    | YamlResult.dict d => Except.ok d
    | YamlResult.otherError m =>
      Except.error (LoadError.configFileException
        ("An unknown exception occured trying to load config file: " ++ m))
    | _ =>
      match P.iniGeneral (generalized (fs.content path)) with
      | Except.error m =>
        Except.error (LoadError.configFileException
          ("An unknown exception occured trying to ini load config file: " ++ m))
      | Except.ok sec => Except.ok (iniExtract sec)

/-- TowerModule.load_config: parse the file, then apply its recognized
fields onto the running configuration. -/
def load_config (fs : FileSystem) (P : Parsers) (c : TowerConfig) (path : String) :
    Except LoadError TowerConfig :=
  match fileData fs P path with
  | Except.error e => Except.error e
  | Except.ok d => applySettings c d

/-- How a resolution run fails: fail_json (reached for every
ConfigFileException) or an exception that escapes uncaught (the strtobool
ValueError). -/
inductive ResolveError
  | failJson (msg : String)
  | uncaught (err : LoadError)
deriving DecidableEq

/-- Lines 92-98: walk the implicit candidate files; a candidate that does
not exist or is a directory is skipped; a ConfigFileException becomes
fail_json; any other exception escapes. -/
def loadImplicit (fs : FileSystem) (P : Parsers) :
    TowerConfig → List String → Except ResolveError TowerConfig
  | c, [] => Except.ok c
  | c, f :: rest =>
    if fs.pathExists f && !fs.isdir f then
      match load_config fs P c f with
      | Except.ok c2 => loadImplicit fs P c2 rest
      | Except.error (LoadError.configFileException m) =>
        Except.error (ResolveError.failJson
          ("The config file " ++ f ++ " is not properly formatted " ++ m))
      | Except.error e => Except.error (ResolveError.uncaught e)
    else loadImplicit fs P c rest

/-- The six Tower-specific module parameters after Ansible argument
parsing: absent parameters are None. -/
structure DirectParams where
  tower_host : Option String
  tower_username : Option String
  tower_password : Option String
  validate_certs : Option Bool
  tower_oauthtoken : Option String
  tower_config_file : Option String

/-- Python truthiness of an optional string parameter. -/
def optStrTruthy : Option String → Bool
  | Option.none => false
  | Option.some s => s != ""

/-- Python truthiness of an optional boolean parameter. -/
def optBoolTruthy : Option Bool → Bool
  | Option.none => false
  | Option.some b => b

/-- The direct fields checked at line 103. -/
def explicit_fields : List String :=
  ["tower_host", "tower_username", "tower_password", "validate_certs", "tower_oauthtoken"]

/-- Line 104: `if self.params.get(direct_field)` (truthiness, so an explicit
False for validate_certs does not count). -/
def paramTruthy (p : DirectParams) (k : String) : Bool :=
  if k = "tower_host" then optStrTruthy p.tower_host
  else if k = "tower_username" then optStrTruthy p.tower_username
  else if k = "tower_password" then optStrTruthy p.tower_password
  else if k = "validate_certs" then optBoolTruthy p.validate_certs
  else if k = "tower_oauthtoken" then optStrTruthy p.tower_oauthtoken
  else false

/-- The warning text of lines 107-110. -/
def warnMsg (dup : List String) : String :=
  "The parameter(s) " ++ String.intercalate ", " dup ++
    " were provided at the same time as tower_config_file. Precedence may be unstable, we suggest either using config file or params."

/-- TowerModule.load_config_files (lines 83-116): the implicit files, then
the explicitly named file with the duplicate-parameter warning.  The first
component collects the warnings emitted; they are emitted before the
explicit file is loaded, so they are present in every branch of its
outcome. -/
def load_config_files (fs : FileSystem) (P : Parsers) (p : DirectParams) (home cwd : String) :
    List String × Except ResolveError TowerConfig :=
  match loadImplicit fs P defaultConfig (configFiles home cwd) with
  | Except.error e => ([], Except.error e)
  | Except.ok c =>
    if optStrTruthy p.tower_config_file then
      let dup := explicit_fields.filter (paramTruthy p)
      let warns := if dup.isEmpty then [] else [warnMsg dup]
      match load_config fs P c (p.tower_config_file.getD "") with
      | Except.ok c2 => (warns, Except.ok c2)
      | Except.error (LoadError.configFileException m) =>
        (warns, Except.error (ResolveError.failJson m))
      | Except.error e => (warns, Except.error (ResolveError.uncaught e))
    else ([], Except.ok c)

/-- Lines 54-64 of TowerModule.__init__: direct parameters override the
file-derived settings; the four string parameters by truthiness, the
validate_certs flag by presence (is not None). -/
def applyDirectParams (p : DirectParams) (c : TowerConfig) : TowerConfig :=
  let c1 := if optStrTruthy p.tower_host then
    { c with host := PyValue.str (p.tower_host.getD "") } else c
  let c2 := if optStrTruthy p.tower_username then
    { c1 with username := PyValue.str (p.tower_username.getD "") } else c1
  let c3 := if optStrTruthy p.tower_password then
    { c2 with password := PyValue.str (p.tower_password.getD "") } else c2
  let c4 := match p.validate_certs with
    | Option.some b => { c3 with verify_ssl := PyValue.bool b }
    | Option.none => c3
  if optStrTruthy p.tower_oauthtoken then
    { c4 with oauth_token := PyValue.str (p.tower_oauthtoken.getD "") } else c4

/-- The configuration-resolution core of TowerModule.__init__ (lines 52-64):
load_config_files, then the direct-parameter overrides.  The URL
normalization and hostname resolution that follow are outside the resolver. -/
def resolveConfig (fs : FileSystem) (P : Parsers) (p : DirectParams) (home cwd : String) :
    List String × Except ResolveError TowerConfig :=
  match load_config_files fs P p home cwd with
  | (w, Except.ok c) => (w, Except.ok (applyDirectParams p c))
  | (w, Except.error e) => (w, Except.error e)

/-- What the final loop guarantees about the verify_ssl field. -/
def verifySpec (c : TowerConfig) (d : List (String × PyValue)) (c2 : TowerConfig) : Prop :=
  match lookupKey d "verify_ssl" with
  | Option.none => c2.verify_ssl = c.verify_ssl
  | Option.some (PyValue.str s) =>
    ∃ n, strtobool s = Except.ok n ∧ c2.verify_ssl = PyValue.int n
  | Option.some v => c2.verify_ssl = PyValue.bool (pyTruthy v)

/-- A value is boolean-equivalent: a Python bool, or one of the ints 0/1
that strtobool produces. -/
def boolish (v : PyValue) : Prop :=
  (∃ b, v = PyValue.bool b) ∨ v = PyValue.int 0 ∨ v = PyValue.int 1

/-- A file content is malformed for the loader when the structured parse
raises an unexpected exception, or falls back to INI and the INI read
fails (parse error or missing general section). -/
def parseFailsB (P : Parsers) (s : String) : Bool :=
  match P.yamlLoad s with
  | YamlResult.dict _ => false
  | YamlResult.otherError _ => true
  | _ =>
    match P.iniGeneral (generalized s) with
    | Except.error _ => true
    | Except.ok _ => false

/-- A filesystem with a single loadable file /bad whose content defeats
both parsers, and nothing else. -/
def fsC2 : FileSystem :=
  { isfile := fun q => q = "/bad", pathExists := fun q => q = "/bad",
    isdir := fun _ => false, readable := fun _ => true,
    content := fun _ => "junk" }

/-- Parsers that reject everything: yaml yields a non-dict, INI fails. -/
def pReject : Parsers :=
  { yamlLoad := fun _ => YamlResult.nonDict,
    iniGeneral := fun _ => Except.error "bad ini" }

/-- Direct parameters naming an explicit config file that does not exist. -/
def prC2 : DirectParams :=
  { tower_host := Option.none, tower_username := Option.none,
    tower_password := Option.none, validate_certs := Option.none,
    tower_oauthtoken := Option.none, tower_config_file := Option.some "/missing" }

/-- A filesystem with one implicit file /tower_cli.cfg (cwd = /). -/
def fsC3 : FileSystem :=
  { isfile := fun q => q = "/tower_cli.cfg", pathExists := fun q => q = "/tower_cli.cfg",
    isdir := fun _ => false, readable := fun _ => true,
    content := fun q => if q = "/tower_cli.cfg" then "F1" else "" }

/-- Parser oracle: content F1 is a YAML mapping with username and password. -/
def pC3 : Parsers :=
  { yamlLoad := fun s => if s = "F1" then
      YamlResult.dict [("username", PyValue.str "admin"), ("password", PyValue.str "secret")]
      else YamlResult.nonDict,
    iniGeneral := fun _ => Except.error "bad ini" }

/-- Direct parameters supplying only a username override. -/
def prC3 : DirectParams :=
  { tower_host := Option.none, tower_username := Option.some "override",
    tower_password := Option.none, validate_certs := Option.none,
    tower_oauthtoken := Option.none, tower_config_file := Option.none }

/-- Parser oracle: content F1 is a YAML mapping setting verify_ssl true. -/
def pC4 : Parsers :=
  { yamlLoad := fun s => if s = "F1" then
      YamlResult.dict [("verify_ssl", PyValue.bool true)]
      else YamlResult.nonDict,
    iniGeneral := fun _ => Except.error "bad ini" }

/-- Direct parameters supplying only an explicit validate_certs=False. -/
def prC4 : DirectParams :=
  { tower_host := Option.none, tower_username := Option.none,
    tower_password := Option.none, validate_certs := Option.some false,
    tower_oauthtoken := Option.none, tower_config_file := Option.none }

/-- Parser oracle: content F1 is a YAML mapping with verify_ssl "yes". -/
def pC5 : Parsers :=
  { yamlLoad := fun s => if s = "F1" then
      YamlResult.dict [("verify_ssl", PyValue.str "yes")]
      else YamlResult.nonDict,
    iniGeneral := fun _ => Except.error "bad ini" }

/-- Direct parameters supplying nothing at all. -/
def prNone : DirectParams :=
  { tower_host := Option.none, tower_username := Option.none,
    tower_password := Option.none, validate_certs := Option.none,
    tower_oauthtoken := Option.none, tower_config_file := Option.none }

/-- An empty filesystem: no candidate file exists. -/
def fsEmpty : FileSystem :=
  { isfile := fun _ => false, pathExists := fun _ => false,
    isdir := fun _ => false, readable := fun _ => true,
    content := fun _ => "" }

/-- Two one-file filesystems for the general-header equivalence: /f1 holds a
legacy INI text lacking the header, /f2 the same text with the header. -/
def fsC7a : FileSystem :=
  { isfile := fun q => q = "/f1", pathExists := fun q => q = "/f1",
    isdir := fun _ => false, readable := fun _ => true,
    content := fun _ => "host = x" }

def fsC7b : FileSystem :=
  { isfile := fun q => q = "/f2", pathExists := fun q => q = "/f2",
    isdir := fun _ => false, readable := fun _ => true,
    content := fun _ => "[general]host = x" }

/-- Parsers for the header test: yaml always falls back, INI succeeds. -/
def pC7 : Parsers :=
  { yamlLoad := fun _ => YamlResult.nonDict,
    iniGeneral := fun s => if s = "[general]host = x" then Except.ok [("host", "x")]
      else Except.error "no section" }

/-- Direct parameters: explicit config file plus validate_certs=False only. -/
def prC8 : DirectParams :=
  { tower_host := Option.none, tower_username := Option.none,
    tower_password := Option.none, validate_certs := Option.some false,
    tower_oauthtoken := Option.none, tower_config_file := Option.some "/cfg" }

/-- A filesystem with a single loadable explicit file /cfg. -/
def fsC8 : FileSystem :=
  { isfile := fun q => q = "/cfg", pathExists := fun q => q = "/cfg",
    isdir := fun _ => false, readable := fun _ => true,
    content := fun _ => "F1" }

/-- Parser oracle: every content is an empty YAML mapping. -/
def pC8 : Parsers :=
  { yamlLoad := fun _ => YamlResult.dict [],
    iniGeneral := fun _ => Except.error "bad ini" }

/-- Parser oracle: every content is a YAML mapping with the unrecognized
truth value "maybe" for verify_ssl. -/
def pC10 : Parsers :=
  { yamlLoad := fun _ => YamlResult.dict [("verify_ssl", PyValue.str "maybe")],
    iniGeneral := fun _ => Except.error "bad ini" }

/-- Fixture config_data and its application result for the C3 witness. -/
def dC3w : List (String × PyValue) := [("username", PyValue.str "u")]

def cC3w : TowerConfig :=
  { host := PyValue.str "127.0.0.1", username := PyValue.str "u",
    password := PyValue.null, verify_ssl := PyValue.bool true,
    oauth_token := PyValue.null }

/-- The result of loading the C3 fixture file onto the defaults. -/
def cC6w : TowerConfig :=
  { host := PyValue.str "127.0.0.1", username := PyValue.str "admin",
    password := PyValue.str "secret", verify_ssl := PyValue.bool true,
    oauth_token := PyValue.null }

/-- The resolved configuration of the C5 counterexample run. -/
def cC5x : TowerConfig :=
  { host := PyValue.str "127.0.0.1", username := PyValue.null,
    password := PyValue.null, verify_ssl := PyValue.int 1,
    oauth_token := PyValue.null }

/-- Direct parameters with an explicit config file and a truthy host. -/
def prC8b : DirectParams := { prC8 with tower_host := Option.some "h" }

/-- The characters of the absolute path /c1/c2/.../cn. -/
def pathChars (comps : List String) : List Char :=
  comps.foldl (fun acc c => acc ++ '/' :: c.data) []

/-- The absolute path /c1/.../cn; the empty component list is the root /. -/
def pathData (comps : List String) : List Char :=
  if comps = [] then ['/'] else pathChars comps

def absPath (comps : List String) : String := String.mk (pathData comps)

/-- The dotted ancestor files the walk inserts, in final list order: one per
proper prefix of the component list (the filesystem root included, the
working directory itself excluded), root-most first. -/
def ancestorDotted (name : String) (comps : List String) : List String :=
  (List.range comps.length).map (fun i => pjoin (absPath (comps.take i)) ("." ++ name))

/-- A well-formed path component: nonempty and slash-free. -/
def goodComp (c : String) : Prop := c ≠ "" ∧ '/' ∉ c.data

instance (c : String) : Decidable (goodComp c) :=
  decidable_of_iff (c ≠ "" ∧ '/' ∉ c.data) Iff.rfl

/-! ## Theorems -/

theorem settingStep_host (d : List (String × PyValue)) (c : TowerConfig) :
    settingStep d c "host" = Except.ok { c with host := (lookupKey d "host").getD c.host } := by
  unfold settingStep
  cases lookupKey d "host" <;> rfl

theorem settingStep_username (d : List (String × PyValue)) (c : TowerConfig) :
    settingStep d c "username" =
      Except.ok { c with username := (lookupKey d "username").getD c.username } := by
  unfold settingStep
  cases lookupKey d "username" <;> rfl

theorem settingStep_password (d : List (String × PyValue)) (c : TowerConfig) :
    settingStep d c "password" =
      Except.ok { c with password := (lookupKey d "password").getD c.password } := by
  unfold settingStep
  cases lookupKey d "password" <;> rfl

theorem settingStep_oauth (d : List (String × PyValue)) (c : TowerConfig) :
    settingStep d c "oauth_token" =
      Except.ok { c with oauth_token := (lookupKey d "oauth_token").getD c.oauth_token } := by
  unfold settingStep
  cases lookupKey d "oauth_token" <;> rfl

theorem settingStep_verify_none (d : List (String × PyValue)) (c : TowerConfig)
    (hv : lookupKey d "verify_ssl" = Option.none) :
    settingStep d c "verify_ssl" = Except.ok c := by
  unfold settingStep
  rw [hv]

theorem settingStep_verify_str_ok (d : List (String × PyValue)) (c : TowerConfig)
    (s : String) (n : Int) (hv : lookupKey d "verify_ssl" = Option.some (PyValue.str s))
    (hs : strtobool s = Except.ok n) :
    settingStep d c "verify_ssl" = Except.ok { c with verify_ssl := PyValue.int n } := by
  unfold settingStep
  rw [hv]
  show applySetting c "verify_ssl" (PyValue.str s) = _
  unfold applySetting
  rw [if_pos rfl]
  show (match strtobool s with
    | Except.ok n => Except.ok (setSetting c "verify_ssl" (PyValue.int n))
    | Except.error m => Except.error (LoadError.valueError m)) = _
  rw [hs]
  exact rfl

theorem settingStep_verify_str_err (d : List (String × PyValue)) (c : TowerConfig)
    (s m : String) (hv : lookupKey d "verify_ssl" = Option.some (PyValue.str s))
    (hs : strtobool s = Except.error m) :
    settingStep d c "verify_ssl" = Except.error (LoadError.valueError m) := by
  unfold settingStep
  rw [hv]
  show applySetting c "verify_ssl" (PyValue.str s) = _
  unfold applySetting
  rw [if_pos rfl]
  show (match strtobool s with
    | Except.ok n => Except.ok (setSetting c "verify_ssl" (PyValue.int n))
    | Except.error m => Except.error (LoadError.valueError m)) = _
  rw [hs]

theorem settingStep_verify_bool (d : List (String × PyValue)) (c : TowerConfig) (b : Bool)
    (hv : lookupKey d "verify_ssl" = Option.some (PyValue.bool b)) :
    settingStep d c "verify_ssl" = Except.ok { c with verify_ssl := PyValue.bool b } := by
  unfold settingStep
  rw [hv]
  rfl

theorem settingStep_verify_int (d : List (String × PyValue)) (c : TowerConfig) (n : Int)
    (hv : lookupKey d "verify_ssl" = Option.some (PyValue.int n)) :
    settingStep d c "verify_ssl" =
      Except.ok { c with verify_ssl := PyValue.bool (n != 0) } := by
  unfold settingStep
  rw [hv]
  rfl

theorem settingStep_verify_null (d : List (String × PyValue)) (c : TowerConfig)
    (hv : lookupKey d "verify_ssl" = Option.some PyValue.null) :
    settingStep d c "verify_ssl" = Except.ok { c with verify_ssl := PyValue.bool false } := by
  unfold settingStep
  rw [hv]
  rfl

/-- Full characterization of a successful pass of the final loop of
load_config: every recognized field present in config_data is applied, and
every field absent from config_data is left untouched. -/
theorem applySettings_spec (c : TowerConfig) (d : List (String × PyValue)) (c2 : TowerConfig)
    (h : applySettings c d = Except.ok c2) :
    c2.host = (lookupKey d "host").getD c.host ∧
    c2.username = (lookupKey d "username").getD c.username ∧
    c2.password = (lookupKey d "password").getD c.password ∧
    c2.oauth_token = (lookupKey d "oauth_token").getD c.oauth_token ∧
    verifySpec c d c2 := by
  unfold applySettings honorred_settings at h
  cases hv : lookupKey d "verify_ssl" with
  | none =>
    simp only [applySettingsGo, settingStep_host, settingStep_username, settingStep_password,
      settingStep_oauth, settingStep_verify_none _ _ hv] at h
    injection h with h
    subst h
    exact ⟨rfl, rfl, rfl, rfl, by simp only [verifySpec]; rw [hv]; trivial⟩
  | some v =>
    cases v with
    | str s =>
      cases hs : strtobool s with
      | ok n =>
        simp only [applySettingsGo, settingStep_host, settingStep_username, settingStep_password,
          settingStep_oauth, settingStep_verify_str_ok _ _ _ _ hv hs] at h
        injection h with h
        subst h
        refine ⟨rfl, rfl, rfl, rfl, ?_⟩
        simp only [verifySpec]
        rw [hv]
        exact ⟨n, hs, rfl⟩
      | error m =>
        simp only [applySettingsGo, settingStep_host, settingStep_username, settingStep_password,
          settingStep_oauth, settingStep_verify_str_err _ _ _ _ hv hs] at h
        cases h
    | bool b =>
      simp only [applySettingsGo, settingStep_host, settingStep_username, settingStep_password,
        settingStep_oauth, settingStep_verify_bool _ _ _ hv] at h
      injection h with h
      subst h
      exact ⟨rfl, rfl, rfl, rfl, by simp only [verifySpec]; rw [hv]; trivial⟩
    | int n =>
      simp only [applySettingsGo, settingStep_host, settingStep_username, settingStep_password,
        settingStep_oauth, settingStep_verify_int _ _ _ hv] at h
      injection h with h
      subst h
      exact ⟨rfl, rfl, rfl, rfl, by simp only [verifySpec]; rw [hv]; trivial⟩
    | null =>
      simp only [applySettingsGo, settingStep_host, settingStep_username, settingStep_password,
        settingStep_oauth, settingStep_verify_null _ _ hv] at h
      injection h with h
      subst h
      exact ⟨rfl, rfl, rfl, rfl, by simp only [verifySpec]; rw [hv]; trivial⟩

/-- strtobool only ever returns the ints 0 and 1. -/
theorem strtobool_ok_cases (s : String) (n : Int) (h : strtobool s = Except.ok n) :
    n = 0 ∨ n = 1 := by
  simp only [strtobool] at h
  split_ifs at h
  · injection h with h
    exact Or.inr h.symm
  · injection h with h
    exact Or.inl h.symm

theorem applySettings_boolish (c : TowerConfig) (d : List (String × PyValue)) (c2 : TowerConfig)
    (h : applySettings c d = Except.ok c2) (hb : boolish c.verify_ssl) :
    boolish c2.verify_ssl := by
  obtain ⟨-, -, -, -, hv⟩ := applySettings_spec c d c2 h
  unfold verifySpec at hv
  cases hvl : lookupKey d "verify_ssl" with
  | none =>
    rw [hvl] at hv
    rw [hv]
    exact hb
  | some v =>
    cases v with
    | str s =>
      rw [hvl] at hv
      obtain ⟨n, hn, he⟩ := hv
      rw [he]
      rcases strtobool_ok_cases s n hn with h0 | h1
      · exact Or.inr (Or.inl (by rw [h0]))
      · exact Or.inr (Or.inr (by rw [h1]))
    | bool b =>
      rw [hvl] at hv
      exact Or.inl ⟨_, hv⟩
    | int n =>
      rw [hvl] at hv
      exact Or.inl ⟨_, hv⟩
    | null =>
      rw [hvl] at hv
      exact Or.inl ⟨_, hv⟩

/-- A successful load_config is a successful parse followed by a successful
application of the parsed config_data. -/
theorem load_config_ok_elim (fs : FileSystem) (P : Parsers) (c : TowerConfig) (path : String)
    (c2 : TowerConfig) (h : load_config fs P c path = Except.ok c2) :
    ∃ d, fileData fs P path = Except.ok d ∧ applySettings c d = Except.ok c2 := by
  unfold load_config at h
  cases hf : fileData fs P path with
  | error e =>
    rw [hf] at h
    cases h
  | ok d =>
    rw [hf] at h
    exact ⟨d, rfl, h⟩

theorem lookup_filterMap_none (sec : List (String × String)) (k : String)
    (h : lookupKey sec k = Option.none) :
    ∀ ks : List String, lookupKey (ks.filterMap (fun k2 =>
      match lookupKey sec k2 with
      | Option.none => Option.none
      | Option.some v => Option.some (k2, PyValue.str v))) k = Option.none := by
  intro ks
  induction ks with
  | nil => rfl
  | cons k2 ks ih =>
    rw [List.filterMap_cons]
    cases h2 : lookupKey sec k2 with
    | none =>
      simp only [h2]
      exact ih
    | some v =>
      simp only [h2]
      show (if k2 = k then Option.some (PyValue.str v) else _) = Option.none
      by_cases e : k2 = k
      · subst e
        rw [h] at h2
        cases h2
      · rw [if_neg e]
        exact ih

/-- If the parsers never surface the key k, the parsed config_data lacks k. -/
theorem fileData_keys (fs : FileSystem) (P : Parsers) (path : String)
    (d : List (String × PyValue)) (k : String)
    (H1 : ∀ s dd, P.yamlLoad s = YamlResult.dict dd → lookupKey dd k = Option.none)
    (H2 : ∀ s l, P.iniGeneral s = Except.ok l → lookupKey l k = Option.none)
    (h : fileData fs P path = Except.ok d) :
    lookupKey d k = Option.none := by
  unfold fileData at h
  by_cases h1 : (!fs.isfile path) = true
  · rw [if_pos h1] at h
    cases h
  · rw [if_neg h1] at h
    by_cases h2 : (!fs.readable path) = true
    · rw [if_pos h2] at h
      cases h
    · rw [if_neg h2] at h
      cases hy : P.yamlLoad (fs.content path) with
      | dict dd =>
        simp only [hy] at h
        injection h with h
        rw [← h]
        exact H1 _ _ hy
      | otherError m =>
        simp only [hy] at h
        cases h
      | nonDict =>
        simp only [hy] at h
        cases hi : P.iniGeneral (generalized (fs.content path)) with
        | error m =>
          simp only [hi] at h
          cases h
        | ok sec =>
          simp only [hi] at h
          injection h with h
          rw [← h]
          exact lookup_filterMap_none sec k (H2 _ _ hi) honorred_settings
      | yamlError =>
        simp only [hy] at h
        cases hi : P.iniGeneral (generalized (fs.content path)) with
        | error m =>
          simp only [hi] at h
          cases h
        | ok sec =>
          simp only [hi] at h
          injection h with h
          rw [← h]
          exact lookup_filterMap_none sec k (H2 _ _ hi) honorred_settings

/-- Generic preservation of a projection through the implicit-file walk. -/
theorem loadImplicit_pres (fs : FileSystem) (P : Parsers) (pr : TowerConfig → PyValue)
    (hstep : ∀ c path c2, load_config fs P c path = Except.ok c2 → pr c2 = pr c) :
    ∀ (files : List String) (c c2 : TowerConfig),
      loadImplicit fs P c files = Except.ok c2 → pr c2 = pr c := by
  intro files
  induction files with
  | nil =>
    intro c c2 h
    injection h with h
    rw [h]
  | cons f rest ih =>
    intro c c2 h
    unfold loadImplicit at h
    split_ifs at h
    · cases hl : load_config fs P c f with
      | ok c3 =>
        rw [hl] at h
        rw [ih c3 c2 h, hstep c f c3 hl]
      | error e =>
        rw [hl] at h
        cases e <;> cases h
    · exact ih c c2 h

/-- Generic preservation of the boolish invariant through the walk. -/
theorem loadImplicit_boolish (fs : FileSystem) (P : Parsers) :
    ∀ (files : List String) (c c2 : TowerConfig),
      loadImplicit fs P c files = Except.ok c2 → boolish c.verify_ssl →
      boolish c2.verify_ssl := by
  intro files
  induction files with
  | nil =>
    intro c c2 h hb
    injection h with h
    rw [← h]
    exact hb
  | cons f rest ih =>
    intro c c2 h hb
    unfold loadImplicit at h
    split_ifs at h
    · cases hl : load_config fs P c f with
      | ok c3 =>
        rw [hl] at h
        obtain ⟨d, -, hap⟩ := load_config_ok_elim fs P c f c3 hl
        exact ih c3 c2 h (applySettings_boolish c d c3 hap hb)
      | error e =>
        rw [hl] at h
        cases e <;> cases h
    · exact ih c c2 h hb

theorem applyDirectParams_host (p : DirectParams) (c : TowerConfig) :
    (applyDirectParams p c).host =
      if optStrTruthy p.tower_host then PyValue.str (p.tower_host.getD "") else c.host := by
  simp only [applyDirectParams]
  cases p.validate_certs <;> split_ifs <;> rfl

theorem applyDirectParams_username (p : DirectParams) (c : TowerConfig) :
    (applyDirectParams p c).username =
      if optStrTruthy p.tower_username then PyValue.str (p.tower_username.getD "")
      else c.username := by
  simp only [applyDirectParams]
  cases p.validate_certs <;> split_ifs <;> rfl

theorem applyDirectParams_password (p : DirectParams) (c : TowerConfig) :
    (applyDirectParams p c).password =
      if optStrTruthy p.tower_password then PyValue.str (p.tower_password.getD "")
      else c.password := by
  simp only [applyDirectParams]
  cases p.validate_certs <;> split_ifs <;> rfl

theorem applyDirectParams_oauth (p : DirectParams) (c : TowerConfig) :
    (applyDirectParams p c).oauth_token =
      if optStrTruthy p.tower_oauthtoken then PyValue.str (p.tower_oauthtoken.getD "")
      else c.oauth_token := by
  simp only [applyDirectParams]
  cases p.validate_certs <;> split_ifs <;> rfl

theorem applyDirectParams_verify (p : DirectParams) (c : TowerConfig) :
    (applyDirectParams p c).verify_ssl =
      match p.validate_certs with
      | Option.some b => PyValue.bool b
      | Option.none => c.verify_ssl := by
  simp only [applyDirectParams]
  cases p.validate_certs <;> split_ifs <;> rfl

theorem load_config_pres_host (fs : FileSystem) (P : Parsers)
    (H1 : ∀ s dd, P.yamlLoad s = YamlResult.dict dd → lookupKey dd "host" = Option.none)
    (H2 : ∀ s l, P.iniGeneral s = Except.ok l → lookupKey l "host" = Option.none)
    (c : TowerConfig) (path : String) (c2 : TowerConfig)
    (h : load_config fs P c path = Except.ok c2) : c2.host = c.host := by
  obtain ⟨d, hf, hap⟩ := load_config_ok_elim fs P c path c2 h
  have hk := fileData_keys fs P path d "host" H1 H2 hf
  obtain ⟨h1, -, -, -, -⟩ := applySettings_spec c d c2 hap
  rw [h1, hk]
  rfl

theorem load_config_pres_username (fs : FileSystem) (P : Parsers)
    (H1 : ∀ s dd, P.yamlLoad s = YamlResult.dict dd → lookupKey dd "username" = Option.none)
    (H2 : ∀ s l, P.iniGeneral s = Except.ok l → lookupKey l "username" = Option.none)
    (c : TowerConfig) (path : String) (c2 : TowerConfig)
    (h : load_config fs P c path = Except.ok c2) : c2.username = c.username := by
  obtain ⟨d, hf, hap⟩ := load_config_ok_elim fs P c path c2 h
  have hk := fileData_keys fs P path d "username" H1 H2 hf
  obtain ⟨-, h1, -, -, -⟩ := applySettings_spec c d c2 hap
  rw [h1, hk]
  rfl

theorem load_config_pres_password (fs : FileSystem) (P : Parsers)
    (H1 : ∀ s dd, P.yamlLoad s = YamlResult.dict dd → lookupKey dd "password" = Option.none)
    (H2 : ∀ s l, P.iniGeneral s = Except.ok l → lookupKey l "password" = Option.none)
    (c : TowerConfig) (path : String) (c2 : TowerConfig)
    (h : load_config fs P c path = Except.ok c2) : c2.password = c.password := by
  obtain ⟨d, hf, hap⟩ := load_config_ok_elim fs P c path c2 h
  have hk := fileData_keys fs P path d "password" H1 H2 hf
  obtain ⟨-, -, h1, -, -⟩ := applySettings_spec c d c2 hap
  rw [h1, hk]
  rfl

theorem load_config_pres_oauth (fs : FileSystem) (P : Parsers)
    (H1 : ∀ s dd, P.yamlLoad s = YamlResult.dict dd → lookupKey dd "oauth_token" = Option.none)
    (H2 : ∀ s l, P.iniGeneral s = Except.ok l → lookupKey l "oauth_token" = Option.none)
    (c : TowerConfig) (path : String) (c2 : TowerConfig)
    (h : load_config fs P c path = Except.ok c2) : c2.oauth_token = c.oauth_token := by
  obtain ⟨d, hf, hap⟩ := load_config_ok_elim fs P c path c2 h
  have hk := fileData_keys fs P path d "oauth_token" H1 H2 hf
  obtain ⟨-, -, -, h1, -⟩ := applySettings_spec c d c2 hap
  rw [h1, hk]
  rfl

theorem load_config_pres_verify (fs : FileSystem) (P : Parsers)
    (H1 : ∀ s dd, P.yamlLoad s = YamlResult.dict dd → lookupKey dd "verify_ssl" = Option.none)
    (H2 : ∀ s l, P.iniGeneral s = Except.ok l → lookupKey l "verify_ssl" = Option.none)
    (c : TowerConfig) (path : String) (c2 : TowerConfig)
    (h : load_config fs P c path = Except.ok c2) : c2.verify_ssl = c.verify_ssl := by
  obtain ⟨d, hf, hap⟩ := load_config_ok_elim fs P c path c2 h
  have hk := fileData_keys fs P path d "verify_ssl" H1 H2 hf
  obtain ⟨-, -, -, -, hv⟩ := applySettings_spec c d c2 hap
  unfold verifySpec at hv
  simp only [hk] at hv
  exact hv

/-- A successful load_config_files run is the implicit walk followed by an
optional explicit load. -/
theorem load_config_files_ok_elim (fs : FileSystem) (P : Parsers) (p : DirectParams)
    (home cwd : String) (w : List String) (c1 : TowerConfig)
    (h : load_config_files fs P p home cwd = (w, Except.ok c1)) :
    ∃ c0, loadImplicit fs P defaultConfig (configFiles home cwd) = Except.ok c0 ∧
      (c1 = c0 ∨ load_config fs P c0 (p.tower_config_file.getD "") = Except.ok c1) := by
  unfold load_config_files at h
  cases himp : loadImplicit fs P defaultConfig (configFiles home cwd) with
  | error e =>
    simp only [himp] at h
    injection h with hw hr
    cases hr
  | ok c0 =>
    simp only [himp] at h
    by_cases ht : optStrTruthy p.tower_config_file = true
    · rw [if_pos ht] at h
      cases hl : load_config fs P c0 (p.tower_config_file.getD "") with
      | ok c2 =>
        simp only [hl] at h
        injection h with hw hr
        injection hr with hr
        refine ⟨c0, rfl, Or.inr ?_⟩
        rw [hl, hr]
      | error e =>
        cases e with
        | configFileException m =>
          simp only [hl] at h
          injection h with hw hr
          cases hr
        | valueError m =>
          simp only [hl] at h
          injection h with hw hr
          cases hr
    · rw [if_neg ht] at h
      injection h with hw hr
      injection hr with hr
      exact ⟨c0, rfl, Or.inl hr.symm⟩

/-- A successful resolution is a successful load_config_files run followed
by the direct-parameter overrides. -/
theorem resolveConfig_ok_elim (fs : FileSystem) (P : Parsers) (p : DirectParams)
    (home cwd : String) (w : List String) (c : TowerConfig)
    (h : resolveConfig fs P p home cwd = (w, Except.ok c)) :
    ∃ c1, load_config_files fs P p home cwd = (w, Except.ok c1) ∧
      c = applyDirectParams p c1 := by
  unfold resolveConfig at h
  cases hlf : load_config_files fs P p home cwd with
  | mk w2 r =>
    cases r with
    | ok c1 =>
      simp only [hlf] at h
      injection h with hw hr
      injection hr with hr
      refine ⟨c1, ?_, hr.symm⟩
      rw [hw]
    | error e =>
      simp only [hlf] at h
      injection h with hw hr
      cases hr

/-- A missing, unreadable, or malformed file makes load_config raise a
ConfigFileException. -/
theorem fileData_malformed (fs : FileSystem) (P : Parsers) (path : String)
    (hbad : fs.isfile path = false ∨ fs.readable path = false ∨
      parseFailsB P (fs.content path) = true) :
    ∃ m, fileData fs P path = Except.error (LoadError.configFileException m) := by
  by_cases hf : (!fs.isfile path) = true
  · refine ⟨"The specified config file does not exist", ?_⟩
    unfold fileData
    rw [if_pos hf]
  · by_cases hr : (!fs.readable path) = true
    · refine ⟨"The specified config file cannot be read", ?_⟩
      unfold fileData
      rw [if_neg hf, if_pos hr]
    · have hro : parseFailsB P (fs.content path) = true := by
        rcases hbad with ha | hb | hc
        · exact absurd (by rw [ha] : (!fs.isfile path) = !false) hf
        · exact absurd (by rw [hb] : (!fs.readable path) = !false) hr
        · exact hc
      unfold parseFailsB at hro
      cases hy : P.yamlLoad (fs.content path) with
      | dict dd =>
        rw [hy] at hro
        cases hro
      | otherError m =>
        refine ⟨"An unknown exception occured trying to load config file: " ++ m, ?_⟩
        unfold fileData
        rw [if_neg hf, if_neg hr]
        simp only [hy]
      | nonDict =>
        rw [hy] at hro
        cases hi : P.iniGeneral (generalized (fs.content path)) with
        | ok sec =>
          rw [hi] at hro
          cases hro
        | error m =>
          refine ⟨"An unknown exception occured trying to ini load config file: " ++ m, ?_⟩
          unfold fileData
          rw [if_neg hf, if_neg hr]
          simp only [hy, hi]
      | yamlError =>
        rw [hy] at hro
        cases hi : P.iniGeneral (generalized (fs.content path)) with
        | ok sec =>
          rw [hi] at hro
          cases hro
        | error m =>
          refine ⟨"An unknown exception occured trying to ini load config file: " ++ m, ?_⟩
          unfold fileData
          rw [if_neg hf, if_neg hr]
          simp only [hy, hi]

/-- An implicit candidate that does not exist or is a directory is skipped:
the walk behaves as if the candidate were not in the list at all. -/
theorem loadImplicit_skip (fs : FileSystem) (P : Parsers) (f : String)
    (hskip : fs.pathExists f = false ∨ fs.isdir f = true) :
    ∀ (pre post : List String) (c : TowerConfig),
      loadImplicit fs P c (pre ++ f :: post) = loadImplicit fs P c (pre ++ post) := by
  have hcond : (fs.pathExists f && !fs.isdir f) = false := by
    rcases hskip with h | h <;> simp [h]
  intro pre
  induction pre with
  | nil =>
    intro post c
    simp only [List.nil_append]
    show loadImplicit fs P c (f :: post) = loadImplicit fs P c post
    unfold loadImplicit
    simp only [hcond, Bool.false_eq_true, if_false]
    cases post <;> rfl
  | cons g pre ih =>
    intro post c
    simp only [List.cons_append]
    show loadImplicit fs P c (g :: (pre ++ f :: post)) =
      loadImplicit fs P c (g :: (pre ++ post))
    unfold loadImplicit
    by_cases hg : (fs.pathExists g && !fs.isdir g) = true
    · rw [if_pos hg, if_pos hg]
      cases hl : load_config fs P c g with
      | ok c2 =>
        simp only [hl]
        exact ih post c2
      | error e =>
        cases e <;> simp only [hl]
    · rw [if_neg hg, if_neg hg]
      exact ih post c

/-- An implicit candidate that exists, is not a directory, and is
unloadable (not a regular readable file, or malformed) aborts the whole
walk through fail_json. -/
theorem loadImplicit_fail_head (fs : FileSystem) (P : Parsers) (c : TowerConfig)
    (f : String) (rest : List String)
    (he : fs.pathExists f = true) (hd : fs.isdir f = false)
    (hbad : fs.isfile f = false ∨ fs.readable f = false ∨
      parseFailsB P (fs.content f) = true) :
    ∃ m, loadImplicit fs P c (f :: rest) = Except.error (ResolveError.failJson m) := by
  obtain ⟨m, hfd⟩ := fileData_malformed fs P f hbad
  have hl : load_config fs P c f = Except.error (LoadError.configFileException m) := by
    unfold load_config
    rw [hfd]
  refine ⟨"The config file " ++ f ++ " is not properly formatted " ++ m, ?_⟩
  unfold loadImplicit
  rw [if_pos (show (fs.pathExists f && !fs.isdir f) = true by rw [he, hd]; rfl)]
  simp only [hl]

/-- If the implicit phase succeeded and the explicitly named file is
missing, unreadable, or malformed, resolution fails through fail_json with
the ConfigFileException message. -/
theorem load_config_files_explicit_fail (fs : FileSystem) (P : Parsers) (p : DirectParams)
    (home cwd : String) (c0 : TowerConfig)
    (himp : loadImplicit fs P defaultConfig (configFiles home cwd) = Except.ok c0)
    (ht : optStrTruthy p.tower_config_file = true)
    (hbad : fs.isfile (p.tower_config_file.getD "") = false ∨
      fs.readable (p.tower_config_file.getD "") = false ∨
      parseFailsB P (fs.content (p.tower_config_file.getD "")) = true) :
    ∃ m, (load_config_files fs P p home cwd).2 =
      Except.error (ResolveError.failJson m) := by
  obtain ⟨m, hfd⟩ := fileData_malformed fs P (p.tower_config_file.getD "") hbad
  have hl : load_config fs P c0 (p.tower_config_file.getD "") =
      Except.error (LoadError.configFileException m) := by
    unfold load_config
    rw [hfd]
  refine ⟨m, ?_⟩
  unfold load_config_files
  simp only [himp, ht, if_true, hl]

/-- After any successful resolution the verify_ssl attribute is
boolean-equivalent: a Python bool or one of the strtobool ints 0/1. -/
theorem resolve_boolish (fs : FileSystem) (P : Parsers) (p : DirectParams)
    (home cwd : String) (w : List String) (c : TowerConfig)
    (h : resolveConfig fs P p home cwd = (w, Except.ok c)) : boolish c.verify_ssl := by
  obtain ⟨c1, hlf, hc⟩ := resolveConfig_ok_elim fs P p home cwd w c h
  obtain ⟨c0, himp, hrest⟩ := load_config_files_ok_elim fs P p home cwd w c1 hlf
  have hb0 : boolish defaultConfig.verify_ssl := Or.inl ⟨true, rfl⟩
  have hb1 : boolish c0.verify_ssl := loadImplicit_boolish fs P _ _ _ himp hb0
  have hb2 : boolish c1.verify_ssl := by
    rcases hrest with he | hl
    · rw [he]
      exact hb1
    · obtain ⟨d, -, hap⟩ := load_config_ok_elim fs P c0 _ c1 hl
      exact applySettings_boolish c0 d c1 hap hb1
  rw [hc, applyDirectParams_verify]
  cases hv : p.validate_certs with
  | none => exact hb2
  | some b => exact Or.inl ⟨b, rfl⟩

theorem resolve_pres_host (fs : FileSystem) (P : Parsers) (p : DirectParams)
    (home cwd : String) (w : List String) (c : TowerConfig)
    (H1 : ∀ s dd, P.yamlLoad s = YamlResult.dict dd → lookupKey dd "host" = Option.none)
    (H2 : ∀ s l, P.iniGeneral s = Except.ok l → lookupKey l "host" = Option.none)
    (hp : optStrTruthy p.tower_host = false)
    (h : resolveConfig fs P p home cwd = (w, Except.ok c)) :
    c.host = PyValue.str "127.0.0.1" := by
  obtain ⟨c1, hlf, hc⟩ := resolveConfig_ok_elim fs P p home cwd w c h
  obtain ⟨c0, himp, hrest⟩ := load_config_files_ok_elim fs P p home cwd w c1 hlf
  have h0 : c0.host = defaultConfig.host :=
    loadImplicit_pres fs P (fun c => c.host)
      (fun c path c2 hl => load_config_pres_host fs P H1 H2 c path c2 hl) _ _ _ himp
  have h1 : c1.host = defaultConfig.host := by
    rcases hrest with he | hl
    · rw [he]
      exact h0
    · rw [load_config_pres_host fs P H1 H2 c0 _ c1 hl]
      exact h0
  rw [hc, applyDirectParams_host]
  simp only [hp, Bool.false_eq_true, if_false]
  rw [h1]
  rfl

theorem resolve_pres_username (fs : FileSystem) (P : Parsers) (p : DirectParams)
    (home cwd : String) (w : List String) (c : TowerConfig)
    (H1 : ∀ s dd, P.yamlLoad s = YamlResult.dict dd → lookupKey dd "username" = Option.none)
    (H2 : ∀ s l, P.iniGeneral s = Except.ok l → lookupKey l "username" = Option.none)
    (hp : optStrTruthy p.tower_username = false)
    (h : resolveConfig fs P p home cwd = (w, Except.ok c)) :
    c.username = PyValue.null := by
  obtain ⟨c1, hlf, hc⟩ := resolveConfig_ok_elim fs P p home cwd w c h
  obtain ⟨c0, himp, hrest⟩ := load_config_files_ok_elim fs P p home cwd w c1 hlf
  have h0 : c0.username = defaultConfig.username :=
    loadImplicit_pres fs P (fun c => c.username)
      (fun c path c2 hl => load_config_pres_username fs P H1 H2 c path c2 hl) _ _ _ himp
  have h1 : c1.username = defaultConfig.username := by
    rcases hrest with he | hl
    · rw [he]
      exact h0
    · rw [load_config_pres_username fs P H1 H2 c0 _ c1 hl]
      exact h0
  rw [hc, applyDirectParams_username]
  simp only [hp, Bool.false_eq_true, if_false]
  rw [h1]
  rfl

theorem resolve_pres_password (fs : FileSystem) (P : Parsers) (p : DirectParams)
    (home cwd : String) (w : List String) (c : TowerConfig)
    (H1 : ∀ s dd, P.yamlLoad s = YamlResult.dict dd → lookupKey dd "password" = Option.none)
    (H2 : ∀ s l, P.iniGeneral s = Except.ok l → lookupKey l "password" = Option.none)
    (hp : optStrTruthy p.tower_password = false)
    (h : resolveConfig fs P p home cwd = (w, Except.ok c)) :
    c.password = PyValue.null := by
  obtain ⟨c1, hlf, hc⟩ := resolveConfig_ok_elim fs P p home cwd w c h
  obtain ⟨c0, himp, hrest⟩ := load_config_files_ok_elim fs P p home cwd w c1 hlf
  have h0 : c0.password = defaultConfig.password :=
    loadImplicit_pres fs P (fun c => c.password)
      (fun c path c2 hl => load_config_pres_password fs P H1 H2 c path c2 hl) _ _ _ himp
  have h1 : c1.password = defaultConfig.password := by
    rcases hrest with he | hl
    · rw [he]
      exact h0
    · rw [load_config_pres_password fs P H1 H2 c0 _ c1 hl]
      exact h0
  rw [hc, applyDirectParams_password]
  simp only [hp, Bool.false_eq_true, if_false]
  rw [h1]
  rfl

theorem resolve_pres_oauth (fs : FileSystem) (P : Parsers) (p : DirectParams)
    (home cwd : String) (w : List String) (c : TowerConfig)
    (H1 : ∀ s dd, P.yamlLoad s = YamlResult.dict dd → lookupKey dd "oauth_token" = Option.none)
    (H2 : ∀ s l, P.iniGeneral s = Except.ok l → lookupKey l "oauth_token" = Option.none)
    (hp : optStrTruthy p.tower_oauthtoken = false)
    (h : resolveConfig fs P p home cwd = (w, Except.ok c)) :
    c.oauth_token = PyValue.null := by
  obtain ⟨c1, hlf, hc⟩ := resolveConfig_ok_elim fs P p home cwd w c h
  obtain ⟨c0, himp, hrest⟩ := load_config_files_ok_elim fs P p home cwd w c1 hlf
  have h0 : c0.oauth_token = defaultConfig.oauth_token :=
    loadImplicit_pres fs P (fun c => c.oauth_token)
      (fun c path c2 hl => load_config_pres_oauth fs P H1 H2 c path c2 hl) _ _ _ himp
  have h1 : c1.oauth_token = defaultConfig.oauth_token := by
    rcases hrest with he | hl
    · rw [he]
      exact h0
    · rw [load_config_pres_oauth fs P H1 H2 c0 _ c1 hl]
      exact h0
  rw [hc, applyDirectParams_oauth]
  simp only [hp, Bool.false_eq_true, if_false]
  rw [h1]
  rfl

theorem resolve_pres_verify (fs : FileSystem) (P : Parsers) (p : DirectParams)
    (home cwd : String) (w : List String) (c : TowerConfig)
    (H1 : ∀ s dd, P.yamlLoad s = YamlResult.dict dd → lookupKey dd "verify_ssl" = Option.none)
    (H2 : ∀ s l, P.iniGeneral s = Except.ok l → lookupKey l "verify_ssl" = Option.none)
    (hp : p.validate_certs = Option.none)
    (h : resolveConfig fs P p home cwd = (w, Except.ok c)) :
    c.verify_ssl = PyValue.bool true := by
  obtain ⟨c1, hlf, hc⟩ := resolveConfig_ok_elim fs P p home cwd w c h
  obtain ⟨c0, himp, hrest⟩ := load_config_files_ok_elim fs P p home cwd w c1 hlf
  have h0 : c0.verify_ssl = defaultConfig.verify_ssl :=
    loadImplicit_pres fs P (fun c => c.verify_ssl)
      (fun c path c2 hl => load_config_pres_verify fs P H1 H2 c path c2 hl) _ _ _ himp
  have h1 : c1.verify_ssl = defaultConfig.verify_ssl := by
    rcases hrest with he | hl
    · rw [he]
      exact h0
    · rw [load_config_pres_verify fs P H1 H2 c0 _ c1 hl]
      exact h0
  rw [hc, applyDirectParams_verify]
  simp only [hp]
  rw [h1]
  rfl

theorem isPrefixOf_append_self (l t : List Char) : l.isPrefixOf (l ++ t) = true := by
  induction l with
  | nil => cases t <;> rfl
  | cons c l ih =>
    show (c == c && List.isPrefixOf l (l ++ t)) = true
    rw [ih]
    simp

theorem hasSubstr_of_prefix (n hay : List Char) (h : n.isPrefixOf hay = true) :
    hasSubstr n hay = true := by
  cases hay with
  | nil =>
    cases n with
    | nil => rfl
    | cons c l => exact nomatch h
  | cons c rest =>
    unfold hasSubstr
    rw [h]
    rfl

theorem containsGeneral_prepend (s : String) : containsGeneral ("[general]" ++ s) = true := by
  unfold containsGeneral
  refine hasSubstr_of_prefix _ _ ?_
  have hd : ("[general]" ++ s).data = "[general]".data ++ s.data := rfl
  rw [hd]
  exact isPrefixOf_append_self _ _

theorem generalized_prepend (s : String) :
    generalized ("[general]" ++ s) = "[general]" ++ s := by
  unfold generalized
  rw [containsGeneral_prepend]
  rfl

theorem generalized_of_absent (s : String) (h : containsGeneral s = false) :
    generalized s = "[general]" ++ s := by
  unfold generalized
  rw [h]
  rfl

/-- Claim C2: an explicitly-named config file that is missing, unreadable,
or malformed always makes resolution fail through fail_json with the
ConfigFileException message; an implicitly-discovered candidate that is
missing or a directory is silently skipped (the walk behaves as if it were
absent from the candidate list); an implicitly-discovered candidate that
exists, is not a directory, and is unloadable makes the whole resolution
fail. -/
theorem C2_theorem :
    (∀ (fs : FileSystem) (P : Parsers) (p : DirectParams) (home cwd : String)
      (c0 : TowerConfig),
      loadImplicit fs P defaultConfig (configFiles home cwd) = Except.ok c0 →
      optStrTruthy p.tower_config_file = true →
      (fs.isfile (p.tower_config_file.getD "") = false ∨
        fs.readable (p.tower_config_file.getD "") = false ∨
        parseFailsB P (fs.content (p.tower_config_file.getD "")) = true) →
      ∃ m, (load_config_files fs P p home cwd).2 =
        Except.error (ResolveError.failJson m)) ∧
    (∀ (fs : FileSystem) (P : Parsers) (f : String),
      (fs.pathExists f = false ∨ fs.isdir f = true) →
      ∀ (pre post : List String) (c : TowerConfig),
        loadImplicit fs P c (pre ++ f :: post) = loadImplicit fs P c (pre ++ post)) ∧
    (∀ (fs : FileSystem) (P : Parsers) (c : TowerConfig) (f : String) (rest : List String),
      fs.pathExists f = true → fs.isdir f = false →
      (fs.isfile f = false ∨ fs.readable f = false ∨ parseFailsB P (fs.content f) = true) →
      ∃ m, loadImplicit fs P c (f :: rest) = Except.error (ResolveError.failJson m)) := by
  refine ⟨?_, ?_, ?_⟩
  · intro fs P p home cwd c0 himp ht hbad
    exact load_config_files_explicit_fail fs P p home cwd c0 himp ht hbad
  · intro fs P f hskip
    exact loadImplicit_skip fs P f hskip
  · intro fs P c f rest he hd hbad
    exact loadImplicit_fail_head fs P c f rest he hd hbad

/-- Witness for C2 at a concrete filesystem: a nonexistent explicit file
fails resolution, a nonexistent implicit candidate is skipped, and an
existing-but-malformed implicit candidate fails the walk. -/
theorem C2_witness :
    (∃ m, (load_config_files fsC2 pReject prC2 "/h" "/").2 =
      Except.error (ResolveError.failJson m)) ∧
    (loadImplicit fsC2 pReject defaultConfig ([] ++ "/nope" :: []) =
      loadImplicit fsC2 pReject defaultConfig ([] ++ [])) ∧
    (∃ m, loadImplicit fsC2 pReject defaultConfig ("/bad" :: []) =
      Except.error (ResolveError.failJson m)) :=
  ⟨C2_theorem.1 fsC2 pReject prC2 "/h" "/" defaultConfig rfl rfl (Or.inl rfl),
    C2_theorem.2.1 fsC2 pReject "/nope" (Or.inl rfl) [] [] defaultConfig,
    C2_theorem.2.2 fsC2 pReject defaultConfig "/bad" [] rfl rfl (Or.inr (Or.inr rfl))⟩

/-- Claim C3: the recognized fields of a later-loaded source overwrite the same
field from earlier sources and absent fields are left untouched (stated as
the getD characterization of one application step), and the round-trip
scenario: a file setting username=admin and password=secret followed by a
direct username=override resolves to username=override, password=secret. -/
theorem C3_theorem :
    (∀ (c : TowerConfig) (d : List (String × PyValue)) (c2 : TowerConfig),
      applySettings c d = Except.ok c2 →
      c2.host = (lookupKey d "host").getD c.host ∧
      c2.username = (lookupKey d "username").getD c.username ∧
      c2.password = (lookupKey d "password").getD c.password ∧
      c2.oauth_token = (lookupKey d "oauth_token").getD c.oauth_token ∧
      (lookupKey d "verify_ssl" = Option.none → c2.verify_ssl = c.verify_ssl)) ∧
    (resolveConfig fsC3 pC3 prC3 "/h" "/").2 = Except.ok
      { host := PyValue.str "127.0.0.1", username := PyValue.str "override",
        password := PyValue.str "secret", verify_ssl := PyValue.bool true,
        oauth_token := PyValue.null } := by
  constructor
  · intro c d c2 h
    obtain ⟨h1, h2, h3, h4, hv⟩ := applySettings_spec c d c2 h
    refine ⟨h1, h2, h3, h4, ?_⟩
    intro hn
    unfold verifySpec at hv
    simp only [hn] at hv
    exact hv
  · rfl

/-- Witness for C3: the overwrite/untouched characterization evaluated on
one concrete config_data. -/
theorem C3_witness :
    cC3w.host = (lookupKey dC3w "host").getD defaultConfig.host ∧
    cC3w.username = (lookupKey dC3w "username").getD defaultConfig.username ∧
    cC3w.password = (lookupKey dC3w "password").getD defaultConfig.password ∧
    cC3w.oauth_token = (lookupKey dC3w "oauth_token").getD defaultConfig.oauth_token ∧
    (lookupKey dC3w "verify_ssl" = Option.none → cC3w.verify_ssl = defaultConfig.verify_ssl) :=
  C3_theorem.1 defaultConfig dC3w cC3w rfl

/-- Claim C4: a directly-supplied validate_certs value always overrides the
file-derived verify_ssl, including an explicit false; with no value supplied
the file-derived value stays; concretely, a file setting verify_ssl true is
overridden by validate_certs=False. -/
theorem C4_theorem :
    (∀ (p : DirectParams) (c : TowerConfig) (b : Bool),
      p.validate_certs = Option.some b →
      (applyDirectParams p c).verify_ssl = PyValue.bool b) ∧
    (∀ (p : DirectParams) (c : TowerConfig),
      p.validate_certs = Option.none →
      (applyDirectParams p c).verify_ssl = c.verify_ssl) ∧
    (resolveConfig fsC3 pC4 prC4 "/h" "/").2 = Except.ok
      { host := PyValue.str "127.0.0.1", username := PyValue.null,
        password := PyValue.null, verify_ssl := PyValue.bool false,
        oauth_token := PyValue.null } := by
  refine ⟨?_, ?_, ?_⟩
  · intro p c b hb
    simp only [applyDirectParams_verify, hb]
  · intro p c hb
    simp only [applyDirectParams_verify, hb]
  · rfl

/-- Witness for C4: both override modes evaluated concretely. -/
theorem C4_witness :
    (applyDirectParams prC4 defaultConfig).verify_ssl = PyValue.bool false ∧
    (applyDirectParams prC3 defaultConfig).verify_ssl = defaultConfig.verify_ssl :=
  ⟨C4_theorem.1 prC4 defaultConfig false rfl, C4_theorem.2.1 prC3 defaultConfig rfl⟩

/-- Claim C6: loading a single config file is atomic with respect to the
resolved configuration: a successful load_config applies every recognized
field of the parsed config_data (present fields get the file value,
absent fields keep the running value); a failed load_config produces no
configuration at all, so no partial application is observable. -/
theorem C6_theorem (fs : FileSystem) (P : Parsers) (c : TowerConfig) (path : String)
    (c2 : TowerConfig) (h : load_config fs P c path = Except.ok c2) :
    ∃ d, fileData fs P path = Except.ok d ∧
      c2.host = (lookupKey d "host").getD c.host ∧
      c2.username = (lookupKey d "username").getD c.username ∧
      c2.password = (lookupKey d "password").getD c.password ∧
      c2.oauth_token = (lookupKey d "oauth_token").getD c.oauth_token ∧
      verifySpec c d c2 := by
  obtain ⟨d, hf, hap⟩ := load_config_ok_elim fs P c path c2 h
  exact ⟨d, hf, applySettings_spec c d c2 hap⟩

/-- Witness for C6: the atomic-application characterization on a concrete
successful load. -/
theorem C6_witness :
    ∃ d, fileData fsC3 pC3 "/tower_cli.cfg" = Except.ok d ∧
      cC6w.host = (lookupKey d "host").getD defaultConfig.host ∧
      cC6w.username = (lookupKey d "username").getD defaultConfig.username ∧
      cC6w.password = (lookupKey d "password").getD defaultConfig.password ∧
      cC6w.oauth_token = (lookupKey d "oauth_token").getD defaultConfig.oauth_token ∧
      verifySpec defaultConfig d cC6w :=
  C6_theorem fsC3 pC3 defaultConfig "/tower_cli.cfg" cC6w rfl

/-- Claim C7: an INI-style text lacking a "[general]" marker loads exactly
like the same text with the marker prepended, because the loader
synthesizes the header by prepending it to the whole text. -/
theorem C7_theorem (fs1 fs2 : FileSystem) (P : Parsers) (c : TowerConfig)
    (p1 p2 : String)
    (hf1 : fs1.isfile p1 = true) (hr1 : fs1.readable p1 = true)
    (hf2 : fs2.isfile p2 = true) (hr2 : fs2.readable p2 = true)
    (hcontent : fs2.content p2 = "[general]" ++ fs1.content p1)
    (hnog : containsGeneral (fs1.content p1) = false)
    (hy1 : P.yamlLoad (fs1.content p1) = YamlResult.nonDict ∨
      P.yamlLoad (fs1.content p1) = YamlResult.yamlError)
    (hy2 : P.yamlLoad (fs2.content p2) = YamlResult.nonDict ∨
      P.yamlLoad (fs2.content p2) = YamlResult.yamlError) :
    load_config fs1 P c p1 = load_config fs2 P c p2 := by
  unfold load_config fileData
  simp only [hf1, hf2, hr1, hr2, Bool.not_true, Bool.false_eq_true, if_false]
  rcases hy1 with h1 | h1 <;> rcases hy2 with h2 | h2 <;>
    simp only [h1, h2] <;>
    rw [hcontent, generalized_of_absent _ hnog, generalized_prepend]

/-- Witness for C7: a concrete headerless INI text and its headered twin
load identically. -/
theorem C7_witness :
    load_config fsC7a pC7 defaultConfig "/f1" = load_config fsC7b pC7 defaultConfig "/f2" :=
  C7_theorem fsC7a fsC7b pC7 defaultConfig "/f1" "/f2" rfl rfl rfl rfl (by decide)
    (by decide) (Or.inl rfl) (Or.inl rfl)

/-- Counterexample to C5 as stated: a file supplying verify_ssl as the
string "yes" resolves to the Python int 1 (the strtobool result), which is
not a Python bool. -/
theorem C5_counterexample :
    ∃ c, (resolveConfig fsC3 pC5 prNone "/h" "/").2 = Except.ok c ∧
      c.verify_ssl = PyValue.int 1 ∧ (∀ b, c.verify_ssl ≠ PyValue.bool b) := by
  refine ⟨cC5x, rfl, rfl, ?_⟩
  intro b h
  cases h

/-- Claim C5 (amended): at the end of every successful resolution the
verify_ssl field is boolean-equivalent (a bool, or one of the strtobool
ints 0/1 - never a string), and every recognized field absent from every
source retains its built-in default: host "127.0.0.1", verify_ssl true,
and None for the other three. -/
theorem C5_theorem :
    (∀ (fs : FileSystem) (P : Parsers) (p : DirectParams) (home cwd : String)
      (w : List String) (c : TowerConfig),
      resolveConfig fs P p home cwd = (w, Except.ok c) → boolish c.verify_ssl) ∧
    (∀ (fs : FileSystem) (P : Parsers) (p : DirectParams) (home cwd : String)
      (w : List String) (c : TowerConfig),
      (∀ s dd, P.yamlLoad s = YamlResult.dict dd → lookupKey dd "host" = Option.none) →
      (∀ s l, P.iniGeneral s = Except.ok l → lookupKey l "host" = Option.none) →
      optStrTruthy p.tower_host = false →
      resolveConfig fs P p home cwd = (w, Except.ok c) →
      c.host = PyValue.str "127.0.0.1") ∧
    (∀ (fs : FileSystem) (P : Parsers) (p : DirectParams) (home cwd : String)
      (w : List String) (c : TowerConfig),
      (∀ s dd, P.yamlLoad s = YamlResult.dict dd → lookupKey dd "username" = Option.none) →
      (∀ s l, P.iniGeneral s = Except.ok l → lookupKey l "username" = Option.none) →
      optStrTruthy p.tower_username = false →
      resolveConfig fs P p home cwd = (w, Except.ok c) →
      c.username = PyValue.null) ∧
    (∀ (fs : FileSystem) (P : Parsers) (p : DirectParams) (home cwd : String)
      (w : List String) (c : TowerConfig),
      (∀ s dd, P.yamlLoad s = YamlResult.dict dd → lookupKey dd "password" = Option.none) →
      (∀ s l, P.iniGeneral s = Except.ok l → lookupKey l "password" = Option.none) →
      optStrTruthy p.tower_password = false →
      resolveConfig fs P p home cwd = (w, Except.ok c) →
      c.password = PyValue.null) ∧
    (∀ (fs : FileSystem) (P : Parsers) (p : DirectParams) (home cwd : String)
      (w : List String) (c : TowerConfig),
      (∀ s dd, P.yamlLoad s = YamlResult.dict dd → lookupKey dd "oauth_token" = Option.none) →
      (∀ s l, P.iniGeneral s = Except.ok l → lookupKey l "oauth_token" = Option.none) →
      optStrTruthy p.tower_oauthtoken = false →
      resolveConfig fs P p home cwd = (w, Except.ok c) →
      c.oauth_token = PyValue.null) ∧
    (∀ (fs : FileSystem) (P : Parsers) (p : DirectParams) (home cwd : String)
      (w : List String) (c : TowerConfig),
      (∀ s dd, P.yamlLoad s = YamlResult.dict dd → lookupKey dd "verify_ssl" = Option.none) →
      (∀ s l, P.iniGeneral s = Except.ok l → lookupKey l "verify_ssl" = Option.none) →
      p.validate_certs = Option.none →
      resolveConfig fs P p home cwd = (w, Except.ok c) →
      c.verify_ssl = PyValue.bool true) := by
  refine ⟨?_, ?_, ?_, ?_, ?_, ?_⟩
  · intro fs P p home cwd w c h
    exact resolve_boolish fs P p home cwd w c h
  · intro fs P p home cwd w c H1 H2 hp h
    exact resolve_pres_host fs P p home cwd w c H1 H2 hp h
  · intro fs P p home cwd w c H1 H2 hp h
    exact resolve_pres_username fs P p home cwd w c H1 H2 hp h
  · intro fs P p home cwd w c H1 H2 hp h
    exact resolve_pres_password fs P p home cwd w c H1 H2 hp h
  · intro fs P p home cwd w c H1 H2 hp h
    exact resolve_pres_oauth fs P p home cwd w c H1 H2 hp h
  · intro fs P p home cwd w c H1 H2 hp h
    exact resolve_pres_verify fs P p home cwd w c H1 H2 hp h

/-- Witness for C5 (amended): a resolution over an empty filesystem keeps
every default, and its verify_ssl is boolean-equivalent. -/
theorem C5_witness :
    boolish defaultConfig.verify_ssl ∧
    defaultConfig.host = PyValue.str "127.0.0.1" ∧
    defaultConfig.username = PyValue.null ∧
    defaultConfig.password = PyValue.null ∧
    defaultConfig.oauth_token = PyValue.null ∧
    defaultConfig.verify_ssl = PyValue.bool true :=
  ⟨C5_theorem.1 fsEmpty pReject prNone "/h" "/" [] defaultConfig rfl,
    C5_theorem.2.1 fsEmpty pReject prNone "/h" "/" [] defaultConfig
      (fun _ _ h => nomatch h) (fun _ _ h => nomatch h) rfl rfl,
    C5_theorem.2.2.1 fsEmpty pReject prNone "/h" "/" [] defaultConfig
      (fun _ _ h => nomatch h) (fun _ _ h => nomatch h) rfl rfl,
    C5_theorem.2.2.2.1 fsEmpty pReject prNone "/h" "/" [] defaultConfig
      (fun _ _ h => nomatch h) (fun _ _ h => nomatch h) rfl rfl,
    C5_theorem.2.2.2.2.1 fsEmpty pReject prNone "/h" "/" [] defaultConfig
      (fun _ _ h => nomatch h) (fun _ _ h => nomatch h) rfl rfl,
    C5_theorem.2.2.2.2.2 fsEmpty pReject prNone "/h" "/" [] defaultConfig
      (fun _ _ h => nomatch h) (fun _ _ h => nomatch h) rfl rfl⟩

/-- Counterexample to C8 as stated: with an explicit config file and an
explicit validate_certs=False (and nothing else), the code emits no
warning at all, because line 104 tests truthiness, not presence. -/
theorem C8_counterexample :
    optStrTruthy prC8.tower_config_file = true ∧
    prC8.validate_certs = Option.some false ∧
    (load_config_files fsC8 pC8 prC8 "/h" "/").1 = [] :=
  ⟨rfl, rfl, rfl⟩

/-- Claim C8 (amended): when an explicit config file is supplied together
with at least one truthy direct parameter (explicit false for
validate_certs does not count), a single warning listing exactly the truthy
duplicated parameter names is emitted, independently of whether the
explicit file then loads successfully; with no truthy duplicate no warning
is emitted. -/
theorem C8_theorem :
    (∀ (fs : FileSystem) (P : Parsers) (p : DirectParams) (home cwd : String)
      (c0 : TowerConfig),
      loadImplicit fs P defaultConfig (configFiles home cwd) = Except.ok c0 →
      optStrTruthy p.tower_config_file = true →
      explicit_fields.filter (paramTruthy p) ≠ [] →
      (load_config_files fs P p home cwd).1 =
        [warnMsg (explicit_fields.filter (paramTruthy p))]) ∧
    (∀ (fs : FileSystem) (P : Parsers) (p : DirectParams) (home cwd : String)
      (c0 : TowerConfig),
      loadImplicit fs P defaultConfig (configFiles home cwd) = Except.ok c0 →
      optStrTruthy p.tower_config_file = true →
      explicit_fields.filter (paramTruthy p) = [] →
      (load_config_files fs P p home cwd).1 = []) := by
  constructor
  · intro fs P p home cwd c0 himp ht hdup
    unfold load_config_files
    simp only [himp, ht, eq_self_iff_true, if_true]
    have hne : (explicit_fields.filter (paramTruthy p)).isEmpty = false := by
      cases hfe : explicit_fields.filter (paramTruthy p) with
      | nil => exact absurd hfe hdup
      | cons a l => rfl
    simp only [hne, Bool.false_eq_true, if_false]
    cases hl : load_config fs P c0 (p.tower_config_file.getD "") with
    | ok c2 => simp only [hl]
    | error e => cases e <;> simp only [hl]
  · intro fs P p home cwd c0 himp ht heq
    unfold load_config_files
    simp only [himp, ht, eq_self_iff_true, if_true, heq, List.isEmpty_nil]
    cases hl : load_config fs P c0 (p.tower_config_file.getD "") with
    | ok c2 => simp only [hl]
    | error e => cases e <;> simp only [hl]

/-- Witness for C8 (amended): one truthy duplicated parameter produces
exactly one warning naming it; the validate_certs=False-only case produces
none. -/
theorem C8_witness :
    (load_config_files fsC8 pC8 prC8b "/h" "/").1 =
      [warnMsg (explicit_fields.filter (paramTruthy prC8b))] ∧
    (load_config_files fsC8 pC8 prC8 "/h" "/").1 = [] :=
  ⟨C8_theorem.1 fsC8 pC8 prC8b "/h" "/" defaultConfig rfl rfl (by decide),
    C8_theorem.2 fsC8 pC8 prC8 "/h" "/" defaultConfig rfl rfl (by decide)⟩

/-- Claim C9: for each of the four direct string parameters, supplying the
empty string behaves exactly like supplying nothing (truthiness test), and
only validate_certs is applied by presence (an explicit false still
overrides). -/
theorem C9_theorem :
    (∀ (fs : FileSystem) (P : Parsers) (p : DirectParams) (home cwd : String),
      resolveConfig fs P { p with tower_host := Option.some "" } home cwd =
        resolveConfig fs P { p with tower_host := Option.none } home cwd) ∧
    (∀ (fs : FileSystem) (P : Parsers) (p : DirectParams) (home cwd : String),
      resolveConfig fs P { p with tower_username := Option.some "" } home cwd =
        resolveConfig fs P { p with tower_username := Option.none } home cwd) ∧
    (∀ (fs : FileSystem) (P : Parsers) (p : DirectParams) (home cwd : String),
      resolveConfig fs P { p with tower_password := Option.some "" } home cwd =
        resolveConfig fs P { p with tower_password := Option.none } home cwd) ∧
    (∀ (fs : FileSystem) (P : Parsers) (p : DirectParams) (home cwd : String),
      resolveConfig fs P { p with tower_oauthtoken := Option.some "" } home cwd =
        resolveConfig fs P { p with tower_oauthtoken := Option.none } home cwd) ∧
    (∀ (p : DirectParams) (c : TowerConfig) (b : Bool),
      p.validate_certs = Option.some b →
      (applyDirectParams p c).verify_ssl = PyValue.bool b) := by
  refine ⟨?_, ?_, ?_, ?_, ?_⟩
  · intro fs P p home cwd
    rfl
  · intro fs P p home cwd
    rfl
  · intro fs P p home cwd
    rfl
  · intro fs P p home cwd
    rfl
  · intro p c b hb
    simp only [applyDirectParams_verify, hb]

/-- Witness for C9: the presence-test conjunct evaluated concretely (the
equality conjuncts are hypothesis-free). -/
theorem C9_witness :
    resolveConfig fsC3 pC3 { prC3 with tower_host := Option.some "" } "/h" "/" =
      resolveConfig fsC3 pC3 { prC3 with tower_host := Option.none } "/h" "/" ∧
    (applyDirectParams prC4 defaultConfig).verify_ssl = PyValue.bool false :=
  ⟨C9_theorem.1 fsC3 pC3 prC3 "/h" "/",
    C9_theorem.2.2.2.2 prC4 defaultConfig false rfl⟩

/-- Claim C10: there is a config file accepted by the structured parse as a
mapping (verify_ssl set to the unrecognized token "maybe") on which
load_config raises an error that is not a ConfigFileException: the
strtobool ValueError escapes. -/
theorem C10_theorem :
    ∃ (fs : FileSystem) (P : Parsers) (path : String) (e : LoadError),
      load_config fs P defaultConfig path = Except.error e ∧
      (∀ m, e ≠ LoadError.configFileException m) := by
  refine ⟨fsC8, pC10, "/cfg", LoadError.valueError "invalid truth value maybe", rfl, ?_⟩
  intro m h
  cases h

/-- Counterexample to C1 as stated: for working directory /a/b/c the code
does consult a root-level /.tower_cli.cfg and does not consult any
/a/b/c/.tower_cli.cfg, so the claimed discovery list is wrong. -/
theorem C1_counterexample :
    configFiles "/home/u" "/a/b/c" ≠
      ["/etc/tower/tower_cli.cfg", "/home/u/.tower_cli.cfg",
        "/a/.tower_cli.cfg", "/a/b/.tower_cli.cfg", "/a/b/c/.tower_cli.cfg",
        "/a/b/c/tower_cli.cfg"] ∧
    "/.tower_cli.cfg" ∈ configFiles "/home/u" "/a/b/c" ∧
    "/a/b/c/.tower_cli.cfg" ∉ configFiles "/home/u" "/a/b/c" := by
  refine ⟨by decide, by decide, by decide⟩

theorem data_mk (l : List Char) : (String.mk l).data = l := rfl

theorem string_mk_data (s : String) : String.mk s.data = s := rfl

theorem takeWhile_append_of_all {α : Type} (p : α → Bool) (l1 l2 : List α)
    (h : ∀ x ∈ l1, p x = true) :
    (l1 ++ l2).takeWhile p = l1 ++ l2.takeWhile p := by
  induction l1 with
  | nil => simp
  | cons a l ih =>
    have ha : p a = true := h a (List.mem_cons_self a l)
    simp only [List.cons_append, List.takeWhile_cons, ha, if_true]
    rw [ih (fun x hx => h x (List.mem_cons_of_mem a hx))]

theorem dropWhile_append_of_all {α : Type} (p : α → Bool) (l1 l2 : List α)
    (h : ∀ x ∈ l1, p x = true) :
    (l1 ++ l2).dropWhile p = l2.dropWhile p := by
  induction l1 with
  | nil => simp
  | cons a l ih =>
    have ha : p a = true := h a (List.mem_cons_self a l)
    simp only [List.cons_append, List.dropWhile_cons, ha, if_true]
    exact ih (fun x hx => h x (List.mem_cons_of_mem a hx))

theorem takeWhile_cons_of_neg {α : Type} (p : α → Bool) (a : α) (l : List α)
    (h : p a = false) : (a :: l).takeWhile p = [] := by
  simp [List.takeWhile_cons, h]

theorem dropWhile_cons_of_neg {α : Type} (p : α → Bool) (a : α) (l : List α)
    (h : p a = false) : (a :: l).dropWhile p = a :: l := by
  simp [List.dropWhile_cons, h]

/-- How posixpath.split acts on a path of the form X ++ / ++ component:
the tail is the component and the head is X (the root when X is empty). -/
theorem splitPath_shape (A : List Char) (c : String) (hc : goodComp c)
    (hA : A = [] ∨ ∃ y ys, A.reverse = y :: ys ∧ y ≠ '/') :
    splitPath (String.mk (A ++ '/' :: c.data)) =
      ((if A = [] then "/" else String.mk A), c) := by
  have hcall : ∀ x ∈ c.data.reverse, (x != '/') = true := by
    intro x hx
    have hxc : x ∈ c.data := List.mem_reverse.mp hx
    exact bne_iff_ne.mpr (fun he => hc.2 (he ▸ hxc))
  have h1 : ((A ++ '/' :: c.data).reverse) = c.data.reverse ++ '/' :: A.reverse := by
    simp [List.reverse_append]
  have h2 : (c.data.reverse ++ '/' :: A.reverse).takeWhile (fun x => x != '/') =
      c.data.reverse := by
    rw [takeWhile_append_of_all _ _ _ hcall,
      takeWhile_cons_of_neg (fun x => x != '/') '/' A.reverse (by decide)]
    simp
  have h3 : (c.data.reverse ++ '/' :: A.reverse).dropWhile (fun x => x != '/') =
      '/' :: A.reverse := by
    rw [dropWhile_append_of_all _ _ _ hcall,
      dropWhile_cons_of_neg (fun x => x != '/') '/' A.reverse (by decide)]
  simp only [splitPath, data_mk, h1, h2, h3]
  rw [List.reverse_reverse, string_mk_data]
  rcases hA with hA | ⟨y, ys, hy, hyne⟩
  · subst hA
    simp
  · have hAne : A ≠ [] := by
      intro h0
      rw [h0, List.reverse_nil] at hy
      cases hy
    rw [hy]
    have hyb : (y == '/') = false := beq_eq_false_iff_ne.mpr hyne
    have hfalse : (('/' :: y :: ys).all (fun x => x == '/')) = false := by
      simp [List.all_cons, hyb]
    rw [hfalse]
    simp only [Bool.false_eq_true, if_false]
    have hdrop : ('/' :: y :: ys).dropWhile (fun x => x == '/') = y :: ys := by
      show (if (('/' : Char) == '/') = true then (y :: ys).dropWhile (fun x => x == '/')
        else '/' :: y :: ys) = y :: ys
      rw [if_pos (by decide), dropWhile_cons_of_neg (fun x => x == '/') y ys hyb]
    rw [hdrop, ← hy, List.reverse_reverse, if_neg hAne]

theorem pathChars_append (comps : List String) (c : String) :
    pathChars (comps ++ [c]) = pathChars comps ++ '/' :: c.data := by
  unfold pathChars
  rw [List.foldl_append]
  rfl

theorem pathData_concat (comps : List String) (c : String) :
    pathData (comps ++ [c]) = pathChars comps ++ '/' :: c.data := by
  unfold pathData
  rw [if_neg (show comps ++ [c] ≠ [] by simp)]
  exact pathChars_append comps c

theorem pathChars_reverse_head (l : List String) (b : String) (hb : goodComp b) :
    ∃ y ys, (pathChars (l ++ [b])).reverse = y :: ys ∧ y ≠ '/' := by
  rw [pathChars_append]
  have hbne : b.data ≠ [] := by
    intro h0
    apply hb.1
    rw [← string_mk_data b, h0]
  cases hbd : b.data.reverse with
  | nil =>
    exfalso
    apply hbne
    rw [← List.reverse_reverse b.data, hbd]
    rfl
  | cons y ys =>
    refine ⟨y, ys ++ '/' :: (pathChars l).reverse, ?_, ?_⟩
    · rw [List.reverse_append, List.reverse_cons, hbd]
      simp
    · have hmem : y ∈ b.data := List.mem_reverse.mp (by rw [hbd]; exact List.mem_cons_self y ys)
      exact fun he => hb.2 (he ▸ hmem)

theorem splitPath_concat (comps : List String) (c : String)
    (hgood : ∀ x ∈ comps, goodComp x) (hc : goodComp c) :
    splitPath (absPath (comps ++ [c])) = (absPath comps, c) := by
  have habs : absPath (comps ++ [c]) = String.mk (pathChars comps ++ '/' :: c.data) := by
    unfold absPath
    rw [pathData_concat]
  rw [habs]
  rcases List.eq_nil_or_concat' comps with hnil | ⟨l, b, hlb⟩
  · subst hnil
    have hch : pathChars ([] : List String) = [] := rfl
    rw [hch, splitPath_shape [] c hc (Or.inl rfl)]
    rfl
  · subst hlb
    rw [splitPath_shape (pathChars (l ++ [b])) c hc
      (Or.inr (pathChars_reverse_head l b (hgood b (by simp))))]
    have hne : pathChars (l ++ [b]) ≠ [] := by
      rw [pathChars_append]
      simp
    rw [if_neg hne]
    unfold absPath pathData
    rw [if_neg (show l ++ [b] ≠ [] by simp)]

theorem length_le_pathChars (comps : List String) :
    comps.length ≤ (pathChars comps).length := by
  induction comps using List.reverseRecOn with
  | nil => simp [pathChars]
  | append_singleton l c ih =>
    rw [pathChars_append]
    simp only [List.length_append, List.length_cons]
    simp at ih ⊢
    omega

theorem length_le_absPath (comps : List String) :
    comps.length ≤ (absPath comps).length := by
  show comps.length ≤ (pathData comps).length
  unfold pathData
  by_cases h : comps = []
  · subst h
    simp
  · rw [if_neg h]
    exact length_le_pathChars comps

theorem ancestorBlock_absPath (name : String) :
    ∀ (comps : List String), (∀ x ∈ comps, goodComp x) →
    ∀ fuel, comps.length ≤ fuel →
      ancestorBlock name fuel (absPath comps) = ancestorDotted name comps := by
  intro comps
  induction comps using List.reverseRecOn with
  | nil =>
    intro _ fuel _
    cases fuel with
    | zero => rfl
    | succ f =>
      show (if (splitPath (absPath [])).2 = "" then []
        else ancestorBlock name f (splitPath (absPath [])).1 ++
          [pjoin (splitPath (absPath [])).1 ("." ++ name)]) = ancestorDotted name []
      rw [if_pos (by decide)]
      rfl
  | append_singleton comps c ih =>
    intro hgood fuel hf
    have hgood2 : ∀ x ∈ comps, goodComp x := fun x hx => hgood x (by simp [hx])
    have hc : goodComp c := hgood c (by simp)
    cases fuel with
    | zero =>
      exfalso
      simp at hf
    | succ f =>
      have hsp := splitPath_concat comps c hgood2 hc
      show (if (splitPath (absPath (comps ++ [c]))).2 = "" then []
        else ancestorBlock name f (splitPath (absPath (comps ++ [c]))).1 ++
          [pjoin (splitPath (absPath (comps ++ [c]))).1 ("." ++ name)]) =
        ancestorDotted name (comps ++ [c])
      rw [hsp]
      rw [if_neg hc.1]
      rw [ih hgood2 f (by simp at hf; omega)]
      unfold ancestorDotted
      have hlen : (comps ++ [c]).length = comps.length + 1 := by simp
      rw [hlen, List.range_succ, List.map_append]
      congr 1
      · apply List.map_congr_left
        intro i hi
        have hile : i ≤ comps.length := by
          have := List.mem_range.mp hi
          omega
        rw [List.take_append_of_le_length hile]
      · simp only [List.map_cons, List.map_nil]
        rw [List.take_append_of_le_length (Nat.le_refl comps.length), List.take_length]

/-- Claim C1 (amended): for a working directory /c1/.../cn with nonempty
slash-free components, the implicit files are consulted in this order:
/etc/tower/tower_cli.cfg, then the home ~/.tower_cli.cfg, then one
.tower_cli.cfg per proper ancestor directory from the filesystem root
itself down to the parent of the working directory (the root included, the
working directory itself excluded), then the
unprefixed tower_cli.cfg. -/
theorem C1_theorem (home : String) (comps : List String)
    (hgood : ∀ x ∈ comps, goodComp x) :
    configFiles home (absPath comps) =
      ["/etc/tower/tower_cli.cfg", pjoin home ("." ++ config_name)]
        ++ ancestorDotted config_name comps
        ++ [pjoin (absPath comps) config_name] := by
  unfold configFiles
  rw [ancestorBlock_absPath config_name comps hgood (absPath comps).length
    (length_le_absPath comps)]

/-- Witness for C1 (amended): the discovery list for /a/b/c. -/
theorem C1_witness :
    configFiles "/home/u" (absPath ["a", "b", "c"]) =
      ["/etc/tower/tower_cli.cfg", pjoin "/home/u" ("." ++ config_name)]
        ++ ancestorDotted config_name ["a", "b", "c"]
        ++ [pjoin (absPath ["a", "b", "c"]) config_name] :=
  C1_theorem "/home/u" ["a", "b", "c"] (by decide)

end Awx

